import Mathlib

/-!
Verification of the virtual loopback audio driver in
`surge-audio-driver/src/SurgeAudioDriver.c` (with constants from
`SurgeAudioDriver.h`) and of the second driver variant in
`native-audio/src/audio_driver/` (`audio_driver_complete.c`,
`audio_driver_properties.c`).

Modelling conventions.
The C code works on machine types; the embedding uses `Nat` for the
unsigned integers (`UInt32`, `UInt64`, `OSStatus`, FourCC selector codes,
object ids) and `Rat` for the IEEE floating point values (`Float32`
samples and volumes, `Float64` sample rates).  Multiplication of a sample
by a volume and the division chains of the timestamp clock are modelled by
exact rational / natural arithmetic; every property proved here about
those models concerns the algorithm (index arithmetic, ordering,
alignment, which value is stored where), not floating point rounding.
Pointer-typed parameters that the C functions receive but never read
(driver ref, device id, cycle info, mutexes) are dropped; parameters that
are received and ignored by the computation (such as `clientID` or the
given data size `inDataSize`) are kept, unused, exactly as in the source.
The interleaved `Float32` ring buffer is a function `Nat → Rat` read and
written at indices below `kRingBufferSize`.
-/

/-! ### Constants from SurgeAudioDriver.h -/

def kObjectID_PlugIn : Nat := 1
def kObjectID_Device : Nat := 2
def kObjectID_Stream_Input : Nat := 3
def kObjectID_Stream_Output : Nat := 4
def kObjectID_Volume_Input_Master : Nat := 5
def kObjectID_Volume_Output_Master : Nat := 6
def kObjectID_Mute_Input_Master : Nat := 7
def kObjectID_Mute_Output_Master : Nat := 8

def kDevice_Name : String := "Surge Audio"
def kDevice_Manufacturer : String := "Surge"
def kDevice_UID : String := "SurgeAudioDevice_UID"
def kDevice_ModelUID : String := "SurgeAudioDevice_ModelUID"

def kSampleRate_Default : Rat := 48000
def kBitsPerChannel : Nat := 32
def kBytesPerChannel : Nat := kBitsPerChannel / 8
def kChannelsPerFrame : Nat := 2
def kBytesPerFrame : Nat := kBytesPerChannel * kChannelsPerFrame

/-- Ring buffer configuration. The header computes the element count of the
`Float32` ring buffer as `kRingBufferFrameSize * kBytesPerFrame`
(16384 × 8 = 131072); the array is allocated and indexed with exactly this
count of `Float32` elements, and all positions are taken modulo it. -/
def kRingBufferFrameSize : Nat := 16384

def kRingBufferSize : Nat := kRingBufferFrameSize * kBytesPerFrame

def kLatency_Frame_Size : Nat := 512

/-! ### CoreAudio FourCC selector and status codes used by the drivers.
Values are the SDK FourCC codes; only their distinctness matters to the
dispatch logic. -/

def kAudioHardwareNoError : Nat := 0
def kAudioHardwareUnknownPropertyError : Nat := 0x77686F3F
def kAudioHardwareBadObjectError : Nat := 0x216F626A
def kAudioHardwareBadPropertySizeError : Nat := 0x2173697A
def kAudioHardwareIllegalOperationError : Nat := 0x6E6F7065

def kAudioObjectUnknown : Nat := 0

def kAudioObjectPropertyBaseClass : Nat := 0x62636C73
def kAudioObjectPropertyClass : Nat := 0x636C6173
def kAudioObjectPropertyOwner : Nat := 0x73746476
def kAudioObjectPropertyName : Nat := 0x6C6E616D
def kAudioObjectPropertyManufacturer : Nat := 0x6C6D616B
def kAudioObjectPropertyOwnedObjects : Nat := 0x6F776E64
def kAudioObjectPropertyControlList : Nat := 0x6374726C

def kAudioPlugInPropertyDeviceList : Nat := 0x64657623
def kAudioPlugInPropertyTranslateUIDToDevice : Nat := 0x75696464
def kAudioPlugInPropertyResourceBundle : Nat := 0x72737263

def kAudioDevicePropertyDeviceUID : Nat := 0x75696420
def kAudioDevicePropertyModelUID : Nat := 0x6D756964
def kAudioDevicePropertyTransportType : Nat := 0x7472616E
def kAudioDevicePropertyRelatedDevices : Nat := 0x616B696E
def kAudioDevicePropertyClockDomain : Nat := 0x636C6B64
def kAudioDevicePropertyDeviceIsAlive : Nat := 0x6C69766E
def kAudioDevicePropertyDeviceIsRunning : Nat := 0x676F696E
def kAudioDevicePropertyDeviceCanBeDefaultDevice : Nat := 0x64666C74
def kAudioDevicePropertyDeviceCanBeDefaultSystemDevice : Nat := 0x73666C74
def kAudioDevicePropertyLatency : Nat := 0x6C746E63
def kAudioDevicePropertyStreams : Nat := 0x73746D23
def kAudioDevicePropertySafetyOffset : Nat := 0x73616674
def kAudioDevicePropertyNominalSampleRate : Nat := 0x6E737274
def kAudioDevicePropertyAvailableNominalSampleRates : Nat := 0x6E737223
def kAudioDevicePropertyIsHidden : Nat := 0x6869646E
def kAudioDevicePropertyZeroTimeStampPeriod : Nat := 0x72696E67
def kAudioDevicePropertyIcon : Nat := 0x69636F6E

def kAudioStreamPropertyIsActive : Nat := 0x73616374
def kAudioStreamPropertyDirection : Nat := 0x73646972
def kAudioStreamPropertyTerminalType : Nat := 0x7465726D
def kAudioStreamPropertyStartingChannel : Nat := 0x7363686E
def kAudioStreamPropertyLatency : Nat := 0x6C746E63
def kAudioStreamPropertyVirtualFormat : Nat := 0x73666D74
def kAudioStreamPropertyPhysicalFormat : Nat := 0x70667420
def kAudioStreamPropertyAvailableVirtualFormats : Nat := 0x73666D61
def kAudioStreamPropertyAvailablePhysicalFormats : Nat := 0x70667461

def kAudioControlPropertyScope : Nat := 0x63736370
def kAudioControlPropertyElement : Nat := 0x63656C6D
def kAudioLevelControlPropertyScalarValue : Nat := 0x6C637376
def kAudioLevelControlPropertyDecibelValue : Nat := 0x6C636476
def kAudioLevelControlPropertyDecibelRange : Nat := 0x6C636472
def kAudioLevelControlPropertyConvertScalarToDecibels : Nat := 0x6C637364
def kAudioLevelControlPropertyConvertDecibelsToScalar : Nat := 0x6C636473

def kAudioObjectPropertyScopeGlobal : Nat := 0x676C6F62
def kAudioObjectPropertyScopeInput : Nat := 0x696E7074
def kAudioObjectPropertyScopeOutput : Nat := 0x6F757470
def kAudioObjectPropertyElementMain : Nat := 0

def kAudioObjectClassID : Nat := 0x616F626A
def kAudioPlugInClassID : Nat := 0x61706C67
def kAudioDeviceClassID : Nat := 0x61646576
def kAudioStreamClassID : Nat := 0x61737472
def kAudioControlClassID : Nat := 0x6163746C
def kAudioVolumeControlClassID : Nat := 0x766C6D65

def kAudioDeviceTransportTypeVirtual : Nat := 0x76697274
def kAudioStreamTerminalTypeMicrophone : Nat := 0x6D696372
def kAudioStreamTerminalTypeSpeaker : Nat := 0x73706B72
def kAudioFormatLinearPCM : Nat := 0x6C70636D
def kAudioFormatFlagIsFloat : Nat := 1
def kAudioFormatFlagsNativeEndian : Nat := 0
def kAudioFormatFlagIsPacked : Nat := 8

def kAudioServerPlugInIOOperationReadInput : Nat := 0x72656164
def kAudioServerPlugInIOOperationWriteMix : Nat := 0x776D6978

/-! ### Data model -/

/-- Property address tuple, as in `AudioObjectPropertyAddress`. -/
structure AudioObjectPropertyAddress where
  mSelector : Nat
  mScope : Nat
  mElement : Nat
deriving DecidableEq

/-- Stream format record, as in `AudioStreamBasicDescription`. -/
structure AudioStreamBasicDescription where
  mSampleRate : Rat
  mFormatID : Nat
  mFormatFlags : Nat
  mBytesPerPacket : Nat
  mFramesPerPacket : Nat
  mBytesPerFrame : Nat
  mChannelsPerFrame : Nat
  mBitsPerChannel : Nat
deriving DecidableEq

/-- The typed data a property getter stores through `outData`, or a setter
reads through `inData`.  The C code casts the untyped pointer to the type
of each selector; the embedding uses one sum of those types. -/
inductive PropertyValue where
  | classID (v : Nat)
  | objectID (v : Nat)
  | objectIDList (vs : List Nat)
  | stringRef (s : String)
  | urlRef (s : String)
  | uint32 (v : Nat)
  | float32 (v : Rat)
  | float64 (v : Rat)
  | valueRange (lo hi : Rat)
  | valueRangeList (rs : List (Rat × Rat))
  | streamFormat (f : AudioStreamBasicDescription)
  | rangedFormatList (fs : List (AudioStreamBasicDescription × Rat × Rat))
deriving DecidableEq

/-- Reading `*((Float64*)inData)`: the unchecked cast of the C setter,
yielding 0 on data of another shape (never exercised by the theorems). -/
def PropertyValue.float64Val : PropertyValue → Rat
  | .float64 v => v
  | _ => 0

/-- Reading `*((Float32*)inData)`. -/
def PropertyValue.float32Val : PropertyValue → Rat
  | .float32 v => v
  | _ => 0

/-- Reading `*((UInt32*)inData)`. -/
def PropertyValue.uint32Val : PropertyValue → Nat
  | .uint32 v => v
  | _ => 0

/-- The mutable global `SurgeAudioDriverState` (`gDriverState`), without the
host ref, bundle id and mutex, which carry no data the modelled functions
compute with. -/
structure DriverState where
  sampleRate : Rat
  ringBufferFrameSize : Nat
  deviceIsRunning : Bool
  inputStreamIsActive : Bool
  outputStreamIsActive : Bool
  inputVolume : Rat
  outputVolume : Rat
  inputMute : Bool
  outputMute : Bool
  ringBuffer : Nat → Rat
  ringBufferWritePosition : Nat
  ringBufferReadPosition : Nat
  anchorHostTime : Nat
  anchorSampleTime : Rat
  ticksPerFrame : Nat

/-- A concrete state matching `InitializeDriverState` on a timebase with
1 ns per tick: rate 48000, volumes 1, zeroed buffer, positions 0, and
`ticksPerFrame = floor((1e9/48000)/1) = 20833`. -/
def testState : DriverState where
  sampleRate := 48000
  ringBufferFrameSize := kRingBufferFrameSize
  deviceIsRunning := false
  inputStreamIsActive := true
  outputStreamIsActive := true
  inputVolume := 1
  outputVolume := 1
  inputMute := false
  outputMute := false
  ringBuffer := fun _ => 0
  ringBufferWritePosition := 0
  ringBufferReadPosition := 0
  anchorHostTime := 0
  anchorSampleTime := 0
  ticksPerFrame := 20833

/-! ### I/O engine: DoIOOperation (SurgeAudioDriver.c lines 922 to 953) -/

/-- One write-mix loop iteration after another:
`ringBuffer[w] = buffer[i] * outputVolume; w = (w + 1) % kRingBufferSize`,
run `k` times starting at host-buffer index `i`. -/
def ringWriteLoop (vol : Rat) (host : Nat → Rat) :
    Nat → Nat → (Nat → Rat) → Nat → (Nat → Rat) × Nat
  | _, 0, ring, w => (ring, w)
  | i, k + 1, ring, w =>
      ringWriteLoop vol host (i + 1) k
        (Function.update ring w (host i * vol)) ((w + 1) % kRingBufferSize)

/-- One read-input loop iteration after another:
`buffer[i] = ringBuffer[r] * inputVolume; r = (r + 1) % kRingBufferSize`,
run `k` times starting at host-buffer index `i`. -/
def ringReadLoop (vol : Rat) (ring : Nat → Rat) :
    Nat → Nat → Nat → (Nat → Rat) → (Nat → Rat) × Nat
  | _, 0, r, out => (out, r)
  | i, k + 1, r, out =>
      ringReadLoop vol ring (i + 1) k ((r + 1) % kRingBufferSize)
        (Function.update out i (ring r * vol))

/-- Result of `DoIOOperation`: the status, the driver state after the call
and the host buffer after the call (`ioMainBuffer` is read for write mix
and overwritten for read input). -/
structure IOOperationResult where
  status : Nat
  state : DriverState
  buffer : Nat → Rat

/-- SurgeAudioDriver_DoIOOperation.  `numSamples = ioBufferFrameSize *
kChannelsPerFrame` interleaved floats are copied between the host buffer
and the ring buffer, scaled by the direction volume; unknown operations
fall through the switch and return success unchanged. -/
def SurgeAudioDriver_DoIOOperation (st : DriverState) (operationID : Nat)
    (ioBufferFrameSize : Nat) (ioMainBuffer : Nat → Rat) : IOOperationResult :=
  let numSamples := ioBufferFrameSize * kChannelsPerFrame
  if operationID = kAudioServerPlugInIOOperationWriteMix then
    let res := ringWriteLoop st.outputVolume ioMainBuffer 0 numSamples
      st.ringBuffer st.ringBufferWritePosition
    { status := kAudioHardwareNoError,
      state := { st with ringBuffer := res.1, ringBufferWritePosition := res.2 },
      buffer := ioMainBuffer }
  else if operationID = kAudioServerPlugInIOOperationReadInput then
    let res := ringReadLoop st.inputVolume st.ringBuffer 0 numSamples
      st.ringBufferReadPosition ioMainBuffer
    { status := kAudioHardwareNoError,
      state := { st with ringBufferReadPosition := res.2 },
      buffer := res.1 }
  else
    { status := kAudioHardwareNoError, state := st, buffer := ioMainBuffer }

/-! ### I/O lifecycle (SurgeAudioDriver.c lines 863 to 901) -/

/-- SurgeAudioDriver_StartIO.  `clientID` is received and ignored by the
source; there is no client counter.  When the device is not running the
anchor host time is captured, the anchor sample time is reset, the ring
buffer is zeroed, both positions are reset and the device is marked
running; when it is already running nothing changes. -/
def SurgeAudioDriver_StartIO (st : DriverState) (clientID : Nat)
    (currentHostTime : Nat) : Nat × DriverState :=
  if st.deviceIsRunning then (kAudioHardwareNoError, st)
  else
    (kAudioHardwareNoError,
      { st with
        anchorHostTime := currentHostTime
        anchorSampleTime := 0
        deviceIsRunning := true
        ringBuffer := fun _ => 0
        ringBufferWritePosition := 0
        ringBufferReadPosition := 0 })

/-- SurgeAudioDriver_StopIO. `clientID` is received and ignored; the device
is unconditionally marked not running. -/
def SurgeAudioDriver_StopIO (st : DriverState) (clientID : Nat) :
    Nat × DriverState :=
  (kAudioHardwareNoError, { st with deviceIsRunning := false })

/-- Result of `GetZeroTimeStamp`. -/
structure ZeroTimeStampResult where
  sampleTime : Nat
  hostTime : Nat
  seed : Nat
deriving DecidableEq

/-- SurgeAudioDriver_GetZeroTimeStamp, with `currentHostTime` standing for
the `mach_absolute_time()` read.  The C computes the elapsed frame count by
`Float64` division and truncates `elapsedSampleTime / 512` to an integer
period count; in exact arithmetic that truncation is the natural division
`elapsed / ticksPerFrame / kLatency_Frame_Size` used here (the theorems
assume `anchorHostTime ≤ currentHostTime`, where the unsigned subtraction
of the source and the truncated subtraction of `Nat` agree). -/
def SurgeAudioDriver_GetZeroTimeStamp (st : DriverState)
    (currentHostTime : Nat) : ZeroTimeStampResult :=
  let elapsedHostTime := currentHostTime - st.anchorHostTime
  let periods := elapsedHostTime / st.ticksPerFrame / kLatency_Frame_Size
  { sampleTime := periods * kLatency_Frame_Size,
    hostTime := st.anchorHostTime + periods * kLatency_Frame_Size * st.ticksPerFrame,
    seed := 1 }

/-- SurgeAudioDriver_WillDoIOOperation: status, `*outWillDo`,
`*outWillDoInPlace`.  Read-input and write-mix answer `(true, true)`; the
default branch answers `(false, true)`. -/
def SurgeAudioDriver_WillDoIOOperation (operationID : Nat) : Nat × Bool × Bool :=
  if operationID = kAudioServerPlugInIOOperationReadInput ∨
      operationID = kAudioServerPlugInIOOperationWriteMix then
    (kAudioHardwareNoError, true, true)
  else
    (kAudioHardwareNoError, false, true)

/-- SurgeAudioDriver_AddRef on the `UInt32` reference count. -/
def SurgeAudioDriver_AddRef (refCount : Nat) : Nat :=
  (refCount + 1) % 2 ^ 32

/-- SurgeAudioDriver_Release: the count is decremented only when positive,
then `CleanupDriverState` runs whenever the count is zero after that (also
when it already was zero); the pair holds the returned count and whether
cleanup ran on this call. -/
def SurgeAudioDriver_Release (refCount : Nat) : Nat × Bool :=
  let c := if refCount > 0 then refCount - 1 else refCount
  (c, c = 0)

/-! ### Property dispatcher (SurgeAudioDriver.c lines 194 to 859) -/

/-- SurgeAudioDriver_HasProperty: the switch on `objectID` and then on
`address.mSelector`; the scope and element of the address are received and
never inspected, exactly as in the source. -/
def SurgeAudioDriver_HasProperty (objectID : Nat)
    (address : AudioObjectPropertyAddress) : Bool :=
  if objectID = kObjectID_PlugIn then
    address.mSelector = kAudioObjectPropertyBaseClass ∨
    address.mSelector = kAudioObjectPropertyClass ∨
    address.mSelector = kAudioObjectPropertyOwner ∨
    address.mSelector = kAudioObjectPropertyManufacturer ∨
    address.mSelector = kAudioObjectPropertyOwnedObjects ∨
    address.mSelector = kAudioPlugInPropertyDeviceList ∨
    address.mSelector = kAudioPlugInPropertyTranslateUIDToDevice ∨
    address.mSelector = kAudioPlugInPropertyResourceBundle
  else if objectID = kObjectID_Device then
    address.mSelector = kAudioObjectPropertyBaseClass ∨
    address.mSelector = kAudioObjectPropertyClass ∨
    address.mSelector = kAudioObjectPropertyOwner ∨
    address.mSelector = kAudioObjectPropertyName ∨
    address.mSelector = kAudioObjectPropertyManufacturer ∨
    address.mSelector = kAudioDevicePropertyDeviceUID ∨
    address.mSelector = kAudioDevicePropertyModelUID ∨
    address.mSelector = kAudioDevicePropertyTransportType ∨
    address.mSelector = kAudioDevicePropertyRelatedDevices ∨
    address.mSelector = kAudioDevicePropertyClockDomain ∨
    address.mSelector = kAudioDevicePropertyDeviceIsAlive ∨
    address.mSelector = kAudioDevicePropertyDeviceIsRunning ∨
    address.mSelector = kAudioDevicePropertyDeviceCanBeDefaultDevice ∨
    address.mSelector = kAudioDevicePropertyDeviceCanBeDefaultSystemDevice ∨
    address.mSelector = kAudioDevicePropertyLatency ∨
    address.mSelector = kAudioDevicePropertyStreams ∨
    address.mSelector = kAudioObjectPropertyControlList ∨
    address.mSelector = kAudioDevicePropertySafetyOffset ∨
    address.mSelector = kAudioDevicePropertyNominalSampleRate ∨
    address.mSelector = kAudioDevicePropertyAvailableNominalSampleRates ∨
    address.mSelector = kAudioDevicePropertyIsHidden ∨
    address.mSelector = kAudioDevicePropertyZeroTimeStampPeriod ∨
    address.mSelector = kAudioDevicePropertyIcon
  else if objectID = kObjectID_Stream_Input ∨ objectID = kObjectID_Stream_Output then
    address.mSelector = kAudioObjectPropertyBaseClass ∨
    address.mSelector = kAudioObjectPropertyClass ∨
    address.mSelector = kAudioObjectPropertyOwner ∨
    address.mSelector = kAudioStreamPropertyIsActive ∨
    address.mSelector = kAudioStreamPropertyDirection ∨
    address.mSelector = kAudioStreamPropertyTerminalType ∨
    address.mSelector = kAudioStreamPropertyStartingChannel ∨
    address.mSelector = kAudioStreamPropertyLatency ∨
    address.mSelector = kAudioStreamPropertyVirtualFormat ∨
    address.mSelector = kAudioStreamPropertyPhysicalFormat ∨
    address.mSelector = kAudioStreamPropertyAvailableVirtualFormats ∨
    address.mSelector = kAudioStreamPropertyAvailablePhysicalFormats
  else if objectID = kObjectID_Volume_Input_Master ∨
      objectID = kObjectID_Volume_Output_Master then
    address.mSelector = kAudioObjectPropertyBaseClass ∨
    address.mSelector = kAudioObjectPropertyClass ∨
    address.mSelector = kAudioObjectPropertyOwner ∨
    address.mSelector = kAudioObjectPropertyOwnedObjects ∨
    address.mSelector = kAudioControlPropertyScope ∨
    address.mSelector = kAudioControlPropertyElement ∨
    address.mSelector = kAudioLevelControlPropertyScalarValue ∨
    address.mSelector = kAudioLevelControlPropertyDecibelValue ∨
    address.mSelector = kAudioLevelControlPropertyDecibelRange ∨
    address.mSelector = kAudioLevelControlPropertyConvertScalarToDecibels ∨
    address.mSelector = kAudioLevelControlPropertyConvertDecibelsToScalar
  else
    false

/-- SurgeAudioDriver_GetPropertyDataSize: the status and the size written
through `outDataSize` (in bytes, using the C sizeofs: 4 for `AudioClassID`,
`AudioObjectID` and `UInt32`, 8 for `CFStringRef`, `CFURLRef` and
`Float64`, 4 for `Float32`, 16 for `AudioValueRange`, 40 for
`AudioStreamBasicDescription`, 56 for `AudioStreamRangedDescription`). -/
def SurgeAudioDriver_GetPropertyDataSize (objectID : Nat)
    (address : AudioObjectPropertyAddress) : Nat × Option Nat :=
  if objectID = kObjectID_PlugIn then
    if address.mSelector = kAudioObjectPropertyBaseClass ∨
        address.mSelector = kAudioObjectPropertyClass ∨
        address.mSelector = kAudioObjectPropertyOwner then
      (kAudioHardwareNoError, some 4)
    else if address.mSelector = kAudioObjectPropertyManufacturer then
      (kAudioHardwareNoError, some 8)
    else if address.mSelector = kAudioObjectPropertyOwnedObjects ∨
        address.mSelector = kAudioPlugInPropertyDeviceList then
      (kAudioHardwareNoError, some 4)
    else if address.mSelector = kAudioPlugInPropertyTranslateUIDToDevice then
      (kAudioHardwareNoError, some 4)
    else if address.mSelector = kAudioPlugInPropertyResourceBundle then
      (kAudioHardwareNoError, some 8)
    else (kAudioHardwareUnknownPropertyError, none)
  else if objectID = kObjectID_Device then
    if address.mSelector = kAudioObjectPropertyBaseClass ∨
        address.mSelector = kAudioObjectPropertyClass then
      (kAudioHardwareNoError, some 4)
    else if address.mSelector = kAudioObjectPropertyOwner then
      (kAudioHardwareNoError, some 4)
    else if address.mSelector = kAudioObjectPropertyName ∨
        address.mSelector = kAudioObjectPropertyManufacturer ∨
        address.mSelector = kAudioDevicePropertyDeviceUID ∨
        address.mSelector = kAudioDevicePropertyModelUID then
      (kAudioHardwareNoError, some 8)
    else if address.mSelector = kAudioDevicePropertyTransportType ∨
        address.mSelector = kAudioDevicePropertyClockDomain then
      (kAudioHardwareNoError, some 4)
    else if address.mSelector = kAudioDevicePropertyRelatedDevices then
      (kAudioHardwareNoError, some 4)
    else if address.mSelector = kAudioDevicePropertyDeviceIsAlive ∨
        address.mSelector = kAudioDevicePropertyDeviceIsRunning ∨
        address.mSelector = kAudioDevicePropertyDeviceCanBeDefaultDevice ∨
        address.mSelector = kAudioDevicePropertyDeviceCanBeDefaultSystemDevice ∨
        address.mSelector = kAudioDevicePropertyIsHidden then
      (kAudioHardwareNoError, some 4)
    else if address.mSelector = kAudioDevicePropertyLatency ∨
        address.mSelector = kAudioDevicePropertySafetyOffset ∨
        address.mSelector = kAudioDevicePropertyZeroTimeStampPeriod then
      (kAudioHardwareNoError, some 4)
    else if address.mSelector = kAudioDevicePropertyStreams then
      if address.mScope = kAudioObjectPropertyScopeInput then
        (kAudioHardwareNoError, some 4)
      else if address.mScope = kAudioObjectPropertyScopeOutput then
        (kAudioHardwareNoError, some 4)
      else (kAudioHardwareNoError, some 8)
    else if address.mSelector = kAudioObjectPropertyControlList then
      (kAudioHardwareNoError, some 16)
    else if address.mSelector = kAudioDevicePropertyNominalSampleRate then
      (kAudioHardwareNoError, some 8)
    else if address.mSelector = kAudioDevicePropertyAvailableNominalSampleRates then
      (kAudioHardwareNoError, some 64)
    else if address.mSelector = kAudioDevicePropertyIcon then
      (kAudioHardwareNoError, some 8)
    else (kAudioHardwareUnknownPropertyError, none)
  else if objectID = kObjectID_Stream_Input ∨ objectID = kObjectID_Stream_Output then
    if address.mSelector = kAudioObjectPropertyBaseClass ∨
        address.mSelector = kAudioObjectPropertyClass then
      (kAudioHardwareNoError, some 4)
    else if address.mSelector = kAudioObjectPropertyOwner then
      (kAudioHardwareNoError, some 4)
    else if address.mSelector = kAudioStreamPropertyIsActive ∨
        address.mSelector = kAudioStreamPropertyDirection ∨
        address.mSelector = kAudioStreamPropertyTerminalType ∨
        address.mSelector = kAudioStreamPropertyStartingChannel ∨
        address.mSelector = kAudioStreamPropertyLatency then
      (kAudioHardwareNoError, some 4)
    else if address.mSelector = kAudioStreamPropertyVirtualFormat ∨
        address.mSelector = kAudioStreamPropertyPhysicalFormat then
      (kAudioHardwareNoError, some 40)
    else if address.mSelector = kAudioStreamPropertyAvailableVirtualFormats ∨
        address.mSelector = kAudioStreamPropertyAvailablePhysicalFormats then
      (kAudioHardwareNoError, some 224)
    else (kAudioHardwareUnknownPropertyError, none)
  else if objectID = kObjectID_Volume_Input_Master ∨
      objectID = kObjectID_Volume_Output_Master then
    if address.mSelector = kAudioObjectPropertyBaseClass ∨
        address.mSelector = kAudioObjectPropertyClass then
      (kAudioHardwareNoError, some 4)
    else if address.mSelector = kAudioObjectPropertyOwner then
      (kAudioHardwareNoError, some 4)
    else if address.mSelector = kAudioObjectPropertyOwnedObjects then
      (kAudioHardwareNoError, some 0)
    else if address.mSelector = kAudioControlPropertyScope ∨
        address.mSelector = kAudioControlPropertyElement then
      (kAudioHardwareNoError, some 4)
    else if address.mSelector = kAudioLevelControlPropertyScalarValue ∨
        address.mSelector = kAudioLevelControlPropertyDecibelValue ∨
        address.mSelector = kAudioLevelControlPropertyConvertScalarToDecibels ∨
        address.mSelector = kAudioLevelControlPropertyConvertDecibelsToScalar then
      (kAudioHardwareNoError, some 4)
    else if address.mSelector = kAudioLevelControlPropertyDecibelRange then
      (kAudioHardwareNoError, some 16)
    else (kAudioHardwareUnknownPropertyError, none)
  else (kAudioHardwareBadObjectError, none)

/-- Result of a property getter: the status, the size stored through
`outDataSize` (`none` when the C leaves it untouched) and the value stored
through `outData` (`none` when nothing is written). -/
structure GetPropertyResult where
  status : Nat
  outDataSize : Option Nat
  outData : Option PropertyValue
deriving DecidableEq

/-- The canonical stream format the Surge driver reports: float32, native
endian, packed, 2 channels, one frame per packet, at the given rate. -/
def surgeStreamFormat (rate : Rat) : AudioStreamBasicDescription where
  mSampleRate := rate
  mFormatID := kAudioFormatLinearPCM
  mFormatFlags := kAudioFormatFlagIsFloat ||| kAudioFormatFlagsNativeEndian |||
    kAudioFormatFlagIsPacked
  mBytesPerPacket := kBytesPerFrame
  mFramesPerPacket := 1
  mBytesPerFrame := kBytesPerFrame
  mChannelsPerFrame := kChannelsPerFrame
  mBitsPerChannel := kBitsPerChannel

/-- The decibel value the getter computes:
`(volume > 0.0f) ? (20.0f * log10f(volume)) : -96.0f`.  The transcendental
`log10f` is passed as a function parameter; no theorem below constrains it. -/
def surgeVolumeToDecibels (log10f : Rat → Rat) (v : Rat) : Rat :=
  if v > 0 then 20 * log10f v else -96

/-- SurgeAudioDriver_GetPropertyData.  The parameter `inDataSize` (the size
of the caller-supplied buffer) is received and never read by the source:
every successful branch stores its full value and its full size regardless
of the given size, and no branch returns `kAudioHardwareBadPropertySizeError`.
`qualifierData` is the UID string qualifier of the translate-UID query, and
`log10f` stands for the C library function of that name. -/
def SurgeAudioDriver_GetPropertyData (log10f : Rat → Rat) (st : DriverState)
    (objectID : Nat) (address : AudioObjectPropertyAddress)
    (qualifierData : Option String) (inDataSize : Nat) : GetPropertyResult :=
  if objectID = kObjectID_PlugIn then
    if address.mSelector = kAudioObjectPropertyBaseClass then
      ⟨kAudioHardwareNoError, some 4, some (.classID kAudioObjectClassID)⟩
    else if address.mSelector = kAudioObjectPropertyClass then
      ⟨kAudioHardwareNoError, some 4, some (.classID kAudioPlugInClassID)⟩
    else if address.mSelector = kAudioObjectPropertyOwner then
      ⟨kAudioHardwareNoError, some 4, some (.objectID kAudioObjectUnknown)⟩
    else if address.mSelector = kAudioObjectPropertyManufacturer then
      ⟨kAudioHardwareNoError, some 8, some (.stringRef kDevice_Manufacturer)⟩
    else if address.mSelector = kAudioObjectPropertyOwnedObjects ∨
        address.mSelector = kAudioPlugInPropertyDeviceList then
      ⟨kAudioHardwareNoError, some 4, some (.objectID kObjectID_Device)⟩
    else if address.mSelector = kAudioPlugInPropertyTranslateUIDToDevice then
      if qualifierData = some kDevice_UID then
        ⟨kAudioHardwareNoError, some 4, some (.objectID kObjectID_Device)⟩
      else
        ⟨kAudioHardwareNoError, some 4, some (.objectID kAudioObjectUnknown)⟩
    else if address.mSelector = kAudioPlugInPropertyResourceBundle then
      ⟨kAudioHardwareNoError, some 8, some (.stringRef "")⟩
    else ⟨kAudioHardwareUnknownPropertyError, none, none⟩
  else if objectID = kObjectID_Device then
    if address.mSelector = kAudioObjectPropertyBaseClass then
      ⟨kAudioHardwareNoError, some 4, some (.classID kAudioObjectClassID)⟩
    else if address.mSelector = kAudioObjectPropertyClass then
      ⟨kAudioHardwareNoError, some 4, some (.classID kAudioDeviceClassID)⟩
    else if address.mSelector = kAudioObjectPropertyOwner then
      ⟨kAudioHardwareNoError, some 4, some (.objectID kObjectID_PlugIn)⟩
    else if address.mSelector = kAudioObjectPropertyName then
      ⟨kAudioHardwareNoError, some 8, some (.stringRef kDevice_Name)⟩
    else if address.mSelector = kAudioObjectPropertyManufacturer then
      ⟨kAudioHardwareNoError, some 8, some (.stringRef kDevice_Manufacturer)⟩
    else if address.mSelector = kAudioDevicePropertyDeviceUID then
      ⟨kAudioHardwareNoError, some 8, some (.stringRef kDevice_UID)⟩
    else if address.mSelector = kAudioDevicePropertyModelUID then
      ⟨kAudioHardwareNoError, some 8, some (.stringRef kDevice_ModelUID)⟩
    else if address.mSelector = kAudioDevicePropertyTransportType then
      ⟨kAudioHardwareNoError, some 4, some (.uint32 kAudioDeviceTransportTypeVirtual)⟩
    else if address.mSelector = kAudioDevicePropertyRelatedDevices then
      ⟨kAudioHardwareNoError, some 4, some (.objectID kObjectID_Device)⟩
    else if address.mSelector = kAudioDevicePropertyClockDomain then
      ⟨kAudioHardwareNoError, some 4, some (.uint32 0)⟩
    else if address.mSelector = kAudioDevicePropertyDeviceIsAlive then
      ⟨kAudioHardwareNoError, some 4, some (.uint32 1)⟩
    else if address.mSelector = kAudioDevicePropertyDeviceIsRunning then
      ⟨kAudioHardwareNoError, some 4,
        some (.uint32 (if st.deviceIsRunning then 1 else 0))⟩
    else if address.mSelector = kAudioDevicePropertyDeviceCanBeDefaultDevice then
      ⟨kAudioHardwareNoError, some 4, some (.uint32 1)⟩
    else if address.mSelector = kAudioDevicePropertyDeviceCanBeDefaultSystemDevice then
      ⟨kAudioHardwareNoError, some 4, some (.uint32 1)⟩
    else if address.mSelector = kAudioDevicePropertyIsHidden then
      ⟨kAudioHardwareNoError, some 4, some (.uint32 0)⟩
    else if address.mSelector = kAudioDevicePropertyLatency then
      ⟨kAudioHardwareNoError, some 4, some (.uint32 0)⟩
    else if address.mSelector = kAudioDevicePropertySafetyOffset then
      ⟨kAudioHardwareNoError, some 4, some (.uint32 0)⟩
    else if address.mSelector = kAudioDevicePropertyZeroTimeStampPeriod then
      ⟨kAudioHardwareNoError, some 4, some (.uint32 kLatency_Frame_Size)⟩
    else if address.mSelector = kAudioDevicePropertyStreams then
      if address.mScope = kAudioObjectPropertyScopeInput then
        ⟨kAudioHardwareNoError, some 4, some (.objectID kObjectID_Stream_Input)⟩
      else if address.mScope = kAudioObjectPropertyScopeOutput then
        ⟨kAudioHardwareNoError, some 4, some (.objectID kObjectID_Stream_Output)⟩
      else
        ⟨kAudioHardwareNoError, some 8,
          some (.objectIDList [kObjectID_Stream_Input, kObjectID_Stream_Output])⟩
    else if address.mSelector = kAudioObjectPropertyControlList then
      ⟨kAudioHardwareNoError, some 16,
        some (.objectIDList [kObjectID_Volume_Input_Master,
          kObjectID_Volume_Output_Master, kObjectID_Mute_Input_Master,
          kObjectID_Mute_Output_Master])⟩
    else if address.mSelector = kAudioDevicePropertyNominalSampleRate then
      ⟨kAudioHardwareNoError, some 8, some (.float64 st.sampleRate)⟩
    else if address.mSelector = kAudioDevicePropertyAvailableNominalSampleRates then
      ⟨kAudioHardwareNoError, some 64,
        some (.valueRangeList [(44100, 44100), (48000, 48000),
          (96000, 96000), (192000, 192000)])⟩
    else ⟨kAudioHardwareUnknownPropertyError, none, none⟩
  else if objectID = kObjectID_Stream_Input ∨ objectID = kObjectID_Stream_Output then
    if address.mSelector = kAudioObjectPropertyBaseClass then
      ⟨kAudioHardwareNoError, some 4, some (.classID kAudioObjectClassID)⟩
    else if address.mSelector = kAudioObjectPropertyClass then
      ⟨kAudioHardwareNoError, some 4, some (.classID kAudioStreamClassID)⟩
    else if address.mSelector = kAudioObjectPropertyOwner then
      ⟨kAudioHardwareNoError, some 4, some (.objectID kObjectID_Device)⟩
    else if address.mSelector = kAudioStreamPropertyIsActive then
      ⟨kAudioHardwareNoError, some 4,
        some (.uint32 (if objectID = kObjectID_Stream_Input then
          (if st.inputStreamIsActive then 1 else 0)
        else (if st.outputStreamIsActive then 1 else 0)))⟩
    else if address.mSelector = kAudioStreamPropertyDirection then
      ⟨kAudioHardwareNoError, some 4,
        some (.uint32 (if objectID = kObjectID_Stream_Input then 1 else 0))⟩
    else if address.mSelector = kAudioStreamPropertyTerminalType then
      ⟨kAudioHardwareNoError, some 4,
        some (.uint32 (if objectID = kObjectID_Stream_Input then
          kAudioStreamTerminalTypeMicrophone else kAudioStreamTerminalTypeSpeaker))⟩
    else if address.mSelector = kAudioStreamPropertyStartingChannel then
      ⟨kAudioHardwareNoError, some 4, some (.uint32 1)⟩
    else if address.mSelector = kAudioStreamPropertyLatency then
      ⟨kAudioHardwareNoError, some 4, some (.uint32 0)⟩
    else if address.mSelector = kAudioStreamPropertyVirtualFormat ∨
        address.mSelector = kAudioStreamPropertyPhysicalFormat then
      ⟨kAudioHardwareNoError, some 40, some (.streamFormat (surgeStreamFormat st.sampleRate))⟩
    else if address.mSelector = kAudioStreamPropertyAvailableVirtualFormats ∨
        address.mSelector = kAudioStreamPropertyAvailablePhysicalFormats then
      ⟨kAudioHardwareNoError, some 224,
        some (.rangedFormatList [
          (surgeStreamFormat 44100, 44100, 44100),
          (surgeStreamFormat 48000, 48000, 48000),
          (surgeStreamFormat 96000, 96000, 96000),
          (surgeStreamFormat 192000, 192000, 192000)])⟩
    else ⟨kAudioHardwareUnknownPropertyError, none, none⟩
  else if objectID = kObjectID_Volume_Input_Master ∨
      objectID = kObjectID_Volume_Output_Master then
    if address.mSelector = kAudioObjectPropertyBaseClass then
      ⟨kAudioHardwareNoError, some 4, some (.classID kAudioControlClassID)⟩
    else if address.mSelector = kAudioObjectPropertyClass then
      ⟨kAudioHardwareNoError, some 4, some (.classID kAudioVolumeControlClassID)⟩
    else if address.mSelector = kAudioObjectPropertyOwner then
      ⟨kAudioHardwareNoError, some 4, some (.objectID kObjectID_Device)⟩
    else if address.mSelector = kAudioObjectPropertyOwnedObjects then
      ⟨kAudioHardwareNoError, some 0, none⟩
    else if address.mSelector = kAudioControlPropertyScope then
      ⟨kAudioHardwareNoError, some 4,
        some (.uint32 (if objectID = kObjectID_Volume_Input_Master then
          kAudioObjectPropertyScopeInput else kAudioObjectPropertyScopeOutput))⟩
    else if address.mSelector = kAudioControlPropertyElement then
      ⟨kAudioHardwareNoError, some 4, some (.uint32 kAudioObjectPropertyElementMain)⟩
    else if address.mSelector = kAudioLevelControlPropertyScalarValue then
      ⟨kAudioHardwareNoError, some 4,
        some (.float32 (if objectID = kObjectID_Volume_Input_Master then
          st.inputVolume else st.outputVolume))⟩
    else if address.mSelector = kAudioLevelControlPropertyDecibelValue then
      ⟨kAudioHardwareNoError, some 4,
        some (.float32 (surgeVolumeToDecibels log10f
          (if objectID = kObjectID_Volume_Input_Master then
            st.inputVolume else st.outputVolume)))⟩
    else if address.mSelector = kAudioLevelControlPropertyDecibelRange then
      ⟨kAudioHardwareNoError, some 16, some (.valueRange (-96) 0)⟩
    else ⟨kAudioHardwareUnknownPropertyError, none, none⟩
  else ⟨kAudioHardwareBadObjectError, none, none⟩

/-- The timing recalculation of the nominal-sample-rate setter:
`ticksPerFrame = (UInt64)(nsPerFrame / nsPerTick)` with
`nsPerFrame = 1e9 / sampleRate` and `nsPerTick = timebase.numer /
timebase.denom`, in exact rational arithmetic with the final truncation as
a natural floor.  The mach timebase is passed in as `tbNumer / tbDenom`. -/
def computeTicksPerFrame (tbNumer tbDenom : Nat) (sampleRate : Rat) : Nat :=
  let nsPerTick : Rat := (tbNumer : Rat) / (tbDenom : Rat)
  let nsPerFrame : Rat := 1000000000 / sampleRate
  Nat.floor (nsPerFrame / nsPerTick)

/-- SurgeAudioDriver_SetPropertyData.  The nominal-sample-rate branch
stores whatever `Float64` arrives, with no membership check against the
advertised rates, and recomputes `ticksPerFrame`; the volume branches store
the scalar unclamped, or `powf(10, dB/20)` of the decibel value, with the
transcendental `powTenDiv20` (standing for `dB ↦ powf(10.0f, dB / 20.0f)`)
passed as a function parameter.  The pair holds the status and the state
after the call. -/
def SurgeAudioDriver_SetPropertyData (tbNumer tbDenom : Nat)
    (powTenDiv20 : Rat → Rat) (st : DriverState) (objectID : Nat)
    (address : AudioObjectPropertyAddress) (inData : PropertyValue) :
    Nat × DriverState :=
  if objectID = kObjectID_Device then
    if address.mSelector = kAudioDevicePropertyNominalSampleRate then
      let rate := inData.float64Val
      (kAudioHardwareNoError,
        { st with
          sampleRate := rate
          ticksPerFrame := computeTicksPerFrame tbNumer tbDenom rate })
    else (kAudioHardwareUnknownPropertyError, st)
  else if objectID = kObjectID_Stream_Input then
    if address.mSelector = kAudioStreamPropertyIsActive then
      (kAudioHardwareNoError, { st with inputStreamIsActive := inData.uint32Val ≠ 0 })
    else (kAudioHardwareUnknownPropertyError, st)
  else if objectID = kObjectID_Stream_Output then
    if address.mSelector = kAudioStreamPropertyIsActive then
      (kAudioHardwareNoError, { st with outputStreamIsActive := inData.uint32Val ≠ 0 })
    else (kAudioHardwareUnknownPropertyError, st)
  else if objectID = kObjectID_Volume_Input_Master then
    if address.mSelector = kAudioLevelControlPropertyScalarValue then
      (kAudioHardwareNoError, { st with inputVolume := inData.float32Val })
    else if address.mSelector = kAudioLevelControlPropertyDecibelValue then
      (kAudioHardwareNoError, { st with inputVolume := powTenDiv20 inData.float32Val })
    else (kAudioHardwareUnknownPropertyError, st)
  else if objectID = kObjectID_Volume_Output_Master then
    if address.mSelector = kAudioLevelControlPropertyScalarValue then
      (kAudioHardwareNoError, { st with outputVolume := inData.float32Val })
    else if address.mSelector = kAudioLevelControlPropertyDecibelValue then
      (kAudioHardwareNoError, { st with outputVolume := powTenDiv20 inData.float32Val })
    else (kAudioHardwareUnknownPropertyError, st)
  else (kAudioHardwareBadObjectError, st)

/-! ### The native-audio driver variant
(`audio_driver_complete.c`, `audio_driver_properties.c`). -/

namespace NativeAudio

/-- The fields of the native variant driver state (`AudioDriverState`
in `audio_driver.h`) read by the modelled property getter. -/
structure AudioDriverState where
  device_object_id : Nat
  is_device_created : Bool
  is_capture_active : Bool
  nominal_sample_rate : Rat

/-- A concrete native driver state as `AudioDriver_Initialize` leaves it:
rate 48000, device created, capture inactive. -/
def nativeTestState : AudioDriverState where
  device_object_id := 2
  is_device_created := true
  is_capture_active := false
  nominal_sample_rate := 48000

/-- AddRef of audio_driver_complete.c, on the `ULONG` count. -/
def AddRef (refCount : Nat) : Nat :=
  (refCount + 1) % 2 ^ 32

/-- Release of audio_driver_complete.c: decrement only when positive, no
cleanup at all, return the count. -/
def Release (refCount : Nat) : Nat :=
  if refCount > 0 then refCount - 1 else refCount

/-- WillDoIOOperation of audio_driver_complete.c: whatever the operation,
it stores true into both flags and returns 0 (the operation id is received
and never inspected).  The triple is the returned status and the two
flags. -/
def WillDoIOOperation (operationID : Nat) : Nat × Bool × Bool :=
  (0, true, true)

/-- GetDevicePropertyData of audio_driver_properties.c.  Each branch sets
`data_size`; with a present output buffer at least `data_size` large it
stores the value and the size; otherwise it stores only the required size
into the in-out `*out_data_size` — and returns `noErr` in both branches.
No branch returns `kAudioHardwareBadPropertySizeError`.  `outDataPresent`
models `out_data != NULL` and `outDataSize` the incoming `*out_data_size`. -/
def GetDevicePropertyData (st : AudioDriverState)
    (address : AudioObjectPropertyAddress) (outDataPresent : Bool)
    (outDataSize : Nat) : GetPropertyResult :=
  if address.mSelector = kAudioObjectPropertyBaseClass then
    if outDataPresent ∧ outDataSize ≥ 4 then
      ⟨kAudioHardwareNoError, some 4, some (.classID kAudioDeviceClassID)⟩
    else ⟨kAudioHardwareNoError, some 4, none⟩
  else if address.mSelector = kAudioObjectPropertyClass then
    if outDataPresent ∧ outDataSize ≥ 4 then
      ⟨kAudioHardwareNoError, some 4, some (.classID kAudioDeviceClassID)⟩
    else ⟨kAudioHardwareNoError, some 4, none⟩
  else if address.mSelector = kAudioDevicePropertyDeviceUID then
    if outDataPresent ∧ outDataSize ≥ 8 then
      ⟨kAudioHardwareNoError, some 8,
        some (.stringRef "GrowhutAudioDriver:VirtualOutput")⟩
    else ⟨kAudioHardwareNoError, some 8, none⟩
  else if address.mSelector = kAudioDevicePropertyNominalSampleRate then
    if outDataPresent ∧ outDataSize ≥ 8 then
      ⟨kAudioHardwareNoError, some 8, some (.float64 st.nominal_sample_rate)⟩
    else ⟨kAudioHardwareNoError, some 8, none⟩
  else if address.mSelector = kAudioDevicePropertyDeviceIsAlive then
    if outDataPresent ∧ outDataSize ≥ 4 then
      ⟨kAudioHardwareNoError, some 4,
        some (.uint32 (if st.is_device_created then 1 else 0))⟩
    else ⟨kAudioHardwareNoError, some 4, none⟩
  else if address.mSelector = kAudioDevicePropertyDeviceIsRunning then
    if outDataPresent ∧ outDataSize ≥ 4 then
      ⟨kAudioHardwareNoError, some 4,
        some (.uint32 (if st.is_capture_active then 1 else 0))⟩
    else ⟨kAudioHardwareNoError, some 4, none⟩
  else if address.mSelector = kAudioDevicePropertyDeviceCanBeDefaultDevice ∨
      address.mSelector = kAudioDevicePropertyDeviceCanBeDefaultSystemDevice then
    if outDataPresent ∧ outDataSize ≥ 4 then
      ⟨kAudioHardwareNoError, some 4, some (.uint32 1)⟩
    else ⟨kAudioHardwareNoError, some 4, none⟩
  else if address.mSelector = kAudioDevicePropertyLatency ∨
      address.mSelector = kAudioDevicePropertySafetyOffset then
    if outDataPresent ∧ outDataSize ≥ 4 then
      ⟨kAudioHardwareNoError, some 4, some (.uint32 0)⟩
    else ⟨kAudioHardwareNoError, some 4, none⟩
  else ⟨kAudioHardwareUnknownPropertyError, none, none⟩

end NativeAudio

/-! ### Ring-buffer loop characterisations -/

lemma kRingBufferSize_pos : 0 < kRingBufferSize := by decide

/-- Adding a step count in `[1, cap)` to an index below `cap` moves it,
modulo `cap`: the modular positions of fewer than `cap` consecutive writes
are pairwise distinct. -/
lemma add_mod_ne_self (cap w a : Nat) (hw : w < cap) (ha : 0 < a)
    (ha2 : a < cap) : (w + a) % cap ≠ w := by
  intro h
  rcases Nat.lt_or_ge (w + a) cap with h1 | h1
  · rw [Nat.mod_eq_of_lt h1] at h
    omega
  · have h2 : (w + a) % cap = w + a - cap := by
      rw [Nat.mod_eq_sub_mod h1, Nat.mod_eq_of_lt (by omega)]
    omega

lemma ringWriteLoop_position (vol : Rat) (host : Nat → Rat) :
    ∀ (k i : Nat) (ring : Nat → Rat) (w : Nat), w < kRingBufferSize →
      (ringWriteLoop vol host i k ring w).2 = (w + k) % kRingBufferSize := by
  intro k
  induction k with
  | zero =>
      intro i ring w hw
      simp [ringWriteLoop, Nat.mod_eq_of_lt hw]
  | succ k ih =>
      intro i ring w hw
      have h1 : (w + 1) % kRingBufferSize < kRingBufferSize :=
        Nat.mod_lt _ kRingBufferSize_pos
      have h2 := ih (i + 1) (Function.update ring w (host i * vol))
        ((w + 1) % kRingBufferSize) h1
      calc (ringWriteLoop vol host i (k + 1) ring w).2
          = ((w + 1) % kRingBufferSize + k) % kRingBufferSize := h2
        _ = (w + (k + 1)) % kRingBufferSize := by
            rw [Nat.mod_add_mod]
            congr 1
            omega

lemma ringWriteLoop_untouched (vol : Rat) (host : Nat → Rat) :
    ∀ (k i : Nat) (ring : Nat → Rat) (w : Nat), w < kRingBufferSize →
      ∀ p : Nat, (∀ j, j < k → p ≠ (w + j) % kRingBufferSize) →
      (ringWriteLoop vol host i k ring w).1 p = ring p := by
  intro k
  induction k with
  | zero => intro i ring w hw p hp; simp [ringWriteLoop]
  | succ k ih =>
      intro i ring w hw p hp
      have hw1 : (w + 1) % kRingBufferSize < kRingBufferSize :=
        Nat.mod_lt _ kRingBufferSize_pos
      have hp0 : p ≠ w := by
        have := hp 0 (Nat.succ_pos k)
        simpa [Nat.mod_eq_of_lt hw] using this
      have hrest : ∀ j, j < k → p ≠ ((w + 1) % kRingBufferSize + j) % kRingBufferSize := by
        intro j hj
        rw [Nat.mod_add_mod]
        have : w + 1 + j = w + (j + 1) := by omega
        rw [this]
        exact hp (j + 1) (by omega)
      calc (ringWriteLoop vol host i (k + 1) ring w).1 p
          = (Function.update ring w (host i * vol)) p :=
            ih (i + 1) _ _ hw1 p hrest
        _ = ring p := Function.update_noteq hp0 _ _

lemma ringWriteLoop_written (vol : Rat) (host : Nat → Rat) :
    ∀ (k i : Nat) (ring : Nat → Rat) (w : Nat), w < kRingBufferSize →
      k ≤ kRingBufferSize →
      ∀ j, j < k →
      (ringWriteLoop vol host i k ring w).1 ((w + j) % kRingBufferSize) =
        host (i + j) * vol := by
  intro k
  induction k with
  | zero => intro i ring w hw hk j hj; omega
  | succ k ih =>
      intro i ring w hw hk j hj
      have hw1 : (w + 1) % kRingBufferSize < kRingBufferSize :=
        Nat.mod_lt _ kRingBufferSize_pos
      cases j with
      | zero =>
          have hmod : (w + 0) % kRingBufferSize = w := by
            simpa using Nat.mod_eq_of_lt hw
          rw [hmod]
          have huntouched : ∀ j2, j2 < k →
              w ≠ ((w + 1) % kRingBufferSize + j2) % kRingBufferSize := by
            intro j2 hj2
            rw [Nat.mod_add_mod]
            have harr : w + 1 + j2 = w + (1 + j2) := by omega
            rw [harr]
            exact (add_mod_ne_self kRingBufferSize w (1 + j2) hw (by omega)
              (by omega)).symm
          calc (ringWriteLoop vol host i (k + 1) ring w).1 w
              = (Function.update ring w (host i * vol)) w :=
                ringWriteLoop_untouched vol host k (i + 1) _ _ hw1 w huntouched
            _ = host i * vol := Function.update_same _ _ _
            _ = host (i + 0) * vol := by rw [Nat.add_zero]
      | succ j =>
          have hmod : (w + (j + 1)) % kRingBufferSize =
              ((w + 1) % kRingBufferSize + j) % kRingBufferSize := by
            rw [Nat.mod_add_mod]
            congr 1
            omega
          rw [hmod]
          have := ih (i + 1) (Function.update ring w (host i * vol))
            ((w + 1) % kRingBufferSize) hw1 (by omega) j (by omega)
          rw [show i + 1 + j = i + (j + 1) by omega] at this
          exact this

lemma ringReadLoop_position (vol : Rat) (ring : Nat → Rat) :
    ∀ (k i : Nat) (r : Nat) (out : Nat → Rat), r < kRingBufferSize →
      (ringReadLoop vol ring i k r out).2 = (r + k) % kRingBufferSize := by
  intro k
  induction k with
  | zero =>
      intro i r out hr
      simp [ringReadLoop, Nat.mod_eq_of_lt hr]
  | succ k ih =>
      intro i r out hr
      have h1 : (r + 1) % kRingBufferSize < kRingBufferSize :=
        Nat.mod_lt _ kRingBufferSize_pos
      have h2 := ih (i + 1) ((r + 1) % kRingBufferSize)
        (Function.update out i (ring r * vol)) h1
      calc (ringReadLoop vol ring i (k + 1) r out).2
          = ((r + 1) % kRingBufferSize + k) % kRingBufferSize := h2
        _ = (r + (k + 1)) % kRingBufferSize := by
            rw [Nat.mod_add_mod]
            congr 1
            omega

lemma ringReadLoop_untouched_below (vol : Rat) (ring : Nat → Rat) :
    ∀ (k i : Nat) (r : Nat) (out : Nat → Rat) (p : Nat), p < i →
      (ringReadLoop vol ring i k r out).1 p = out p := by
  intro k
  induction k with
  | zero => intro i r out p hp; simp [ringReadLoop]
  | succ k ih =>
      intro i r out p hp
      calc (ringReadLoop vol ring i (k + 1) r out).1 p
          = (Function.update out i (ring r * vol)) p :=
            ih (i + 1) _ _ p (by omega)
        _ = out p := Function.update_noteq (by omega) _ _

lemma ringReadLoop_output (vol : Rat) (ring : Nat → Rat) :
    ∀ (k i : Nat) (r : Nat) (out : Nat → Rat), r < kRingBufferSize →
      ∀ j, j < k →
      (ringReadLoop vol ring i k r out).1 (i + j) =
        ring ((r + j) % kRingBufferSize) * vol := by
  intro k
  induction k with
  | zero => intro i r out hr j hj; omega
  | succ k ih =>
      intro i r out hr j hj
      have hr1 : (r + 1) % kRingBufferSize < kRingBufferSize :=
        Nat.mod_lt _ kRingBufferSize_pos
      cases j with
      | zero =>
          have hmod : (r + 0) % kRingBufferSize = r := by
            simpa using Nat.mod_eq_of_lt hr
          rw [hmod, Nat.add_zero]
          calc (ringReadLoop vol ring i (k + 1) r out).1 i
              = (Function.update out i (ring r * vol)) i :=
                ringReadLoop_untouched_below vol ring k (i + 1) _ _ i (by omega)
            _ = ring r * vol := Function.update_same _ _ _
      | succ j =>
          have hmod : (r + (j + 1)) % kRingBufferSize =
              ((r + 1) % kRingBufferSize + j) % kRingBufferSize := by
            rw [Nat.mod_add_mod]
            congr 1
            omega
          rw [hmod]
          have := ih (i + 1) ((r + 1) % kRingBufferSize)
            (Function.update out i (ring r * vol)) hr1 j (by omega)
          rw [show i + 1 + j = i + (j + 1) by omega] at this
          exact this

/-! ### Iterated I/O cycles: `N` write-mix calls followed by `N` read-input
calls, each of `K` frames, as in the loopback scenario. -/

/-- State after `m` write-mix calls of `frames` frames each; the `m`-th
call reads its host samples from `hosts m`. -/
def writePhase (frames : Nat) (hosts : Nat → Nat → Rat) (st : DriverState) :
    Nat → DriverState
  | 0 => st
  | m + 1 =>
      (SurgeAudioDriver_DoIOOperation (writePhase frames hosts st m)
        kAudioServerPlugInIOOperationWriteMix frames (hosts m)).state

/-- State after `m` read-input calls of `frames` frames each; the `m`-th
call receives `inbufs m` as the incoming host buffer it overwrites. -/
def readPhase (frames : Nat) (inbufs : Nat → Nat → Rat) (st : DriverState) :
    Nat → DriverState
  | 0 => st
  | m + 1 =>
      (SurgeAudioDriver_DoIOOperation (readPhase frames inbufs st m)
        kAudioServerPlugInIOOperationReadInput frames (inbufs m)).state

/-- The host buffer returned by the `m`-th read-input call, counting from
zero, of the read phase. -/
def readOutput (frames : Nat) (inbufs : Nat → Nat → Rat) (st : DriverState)
    (m : Nat) : Nat → Rat :=
  (SurgeAudioDriver_DoIOOperation (readPhase frames inbufs st m)
    kAudioServerPlugInIOOperationReadInput frames (inbufs m)).buffer

lemma operation_ids_differ :
    kAudioServerPlugInIOOperationReadInput ≠ kAudioServerPlugInIOOperationWriteMix := by
  decide

/-- Unfolding one write-mix call of the engine. -/
lemma doIOOperation_writeMix (st : DriverState) (n : Nat) (host : Nat → Rat) :
    SurgeAudioDriver_DoIOOperation st kAudioServerPlugInIOOperationWriteMix n host =
      { status := kAudioHardwareNoError,
        state := { st with
          ringBuffer := (ringWriteLoop st.outputVolume host 0 (n * kChannelsPerFrame)
            st.ringBuffer st.ringBufferWritePosition).1,
          ringBufferWritePosition := (ringWriteLoop st.outputVolume host 0
            (n * kChannelsPerFrame) st.ringBuffer st.ringBufferWritePosition).2 },
        buffer := host } := by
  simp [SurgeAudioDriver_DoIOOperation]

/-- Unfolding one read-input call of the engine. -/
lemma doIOOperation_readInput (st : DriverState) (n : Nat) (host : Nat → Rat) :
    SurgeAudioDriver_DoIOOperation st kAudioServerPlugInIOOperationReadInput n host =
      { status := kAudioHardwareNoError,
        state := { st with
          ringBufferReadPosition := (ringReadLoop st.inputVolume st.ringBuffer 0
            (n * kChannelsPerFrame) st.ringBufferReadPosition host).2 },
        buffer := (ringReadLoop st.inputVolume st.ringBuffer 0
          (n * kChannelsPerFrame) st.ringBufferReadPosition host).1 } := by
  rw [SurgeAudioDriver_DoIOOperation, if_neg operation_ids_differ, if_pos rfl]

lemma writePhase_preserves (frames : Nat) (hosts : Nat → Nat → Rat)
    (st : DriverState) : ∀ m : Nat,
    (writePhase frames hosts st m).ringBufferReadPosition = st.ringBufferReadPosition ∧
    (writePhase frames hosts st m).outputVolume = st.outputVolume ∧
    (writePhase frames hosts st m).inputVolume = st.inputVolume := by
  intro m
  induction m with
  | zero => exact ⟨rfl, rfl, rfl⟩
  | succ m ih =>
      obtain ⟨h1, h2, h3⟩ := ih
      refine ⟨?_, ?_, ?_⟩ <;>
        simp [writePhase, doIOOperation_writeMix, h1, h2, h3]

lemma readPhase_preserves (frames : Nat) (inbufs : Nat → Nat → Rat)
    (st : DriverState) : ∀ m : Nat,
    (readPhase frames inbufs st m).ringBuffer = st.ringBuffer ∧
    (readPhase frames inbufs st m).ringBufferWritePosition = st.ringBufferWritePosition ∧
    (readPhase frames inbufs st m).inputVolume = st.inputVolume := by
  intro m
  induction m with
  | zero => exact ⟨rfl, rfl, rfl⟩
  | succ m ih =>
      obtain ⟨h1, h2, h3⟩ := ih
      refine ⟨?_, ?_, ?_⟩ <;>
        simp [readPhase, doIOOperation_readInput, h1, h2, h3]

lemma writePhase_writePosition (frames : Nat) (hosts : Nat → Nat → Rat)
    (st : DriverState) (hw : st.ringBufferWritePosition = 0) : ∀ m : Nat,
    (writePhase frames hosts st m).ringBufferWritePosition =
      (m * (frames * kChannelsPerFrame)) % kRingBufferSize := by
  intro m
  induction m with
  | zero => simpa [writePhase] using hw.trans (by decide)
  | succ m ih =>
      have hlt : (writePhase frames hosts st m).ringBufferWritePosition <
          kRingBufferSize := by
        rw [ih]; exact Nat.mod_lt _ kRingBufferSize_pos
      calc (writePhase frames hosts st (m + 1)).ringBufferWritePosition
          = ((writePhase frames hosts st m).ringBufferWritePosition +
              frames * kChannelsPerFrame) % kRingBufferSize := by
            simp [writePhase, doIOOperation_writeMix]
            exact ringWriteLoop_position _ _ _ _ _ _ hlt
        _ = ((m * (frames * kChannelsPerFrame)) % kRingBufferSize +
              frames * kChannelsPerFrame) % kRingBufferSize := by rw [ih]
        _ = ((m + 1) * (frames * kChannelsPerFrame)) % kRingBufferSize := by
            rw [Nat.mod_add_mod]
            congr 1
            ring

lemma readPhase_readPosition (frames : Nat) (inbufs : Nat → Nat → Rat)
    (st : DriverState) (hr : st.ringBufferReadPosition = 0) : ∀ m : Nat,
    (readPhase frames inbufs st m).ringBufferReadPosition =
      (m * (frames * kChannelsPerFrame)) % kRingBufferSize := by
  intro m
  induction m with
  | zero => simpa [readPhase] using hr.trans (by decide)
  | succ m ih =>
      have hlt : (readPhase frames inbufs st m).ringBufferReadPosition <
          kRingBufferSize := by
        rw [ih]; exact Nat.mod_lt _ kRingBufferSize_pos
      calc (readPhase frames inbufs st (m + 1)).ringBufferReadPosition
          = ((readPhase frames inbufs st m).ringBufferReadPosition +
              frames * kChannelsPerFrame) % kRingBufferSize := by
            simp [readPhase, doIOOperation_readInput]
            exact ringReadLoop_position _ _ _ _ _ _ hlt
        _ = ((m * (frames * kChannelsPerFrame)) % kRingBufferSize +
              frames * kChannelsPerFrame) % kRingBufferSize := by rw [ih]
        _ = ((m + 1) * (frames * kChannelsPerFrame)) % kRingBufferSize := by
            rw [Nat.mod_add_mod]
            congr 1
            ring

/-- Content of the ring buffer after `m ≤ N` write-mix calls with no
overrun: sample `j` of the `t`-th host buffer sits at flat index
`t * (frames * kChannelsPerFrame) + j`, scaled by the output volume. -/
lemma writePhase_content (frames N : Nat) (hosts : Nat → Nat → Rat)
    (st : DriverState) (hw : st.ringBufferWritePosition = 0)
    (hcap : N * (frames * kChannelsPerFrame) ≤ kRingBufferSize) : ∀ m, m ≤ N →
    ∀ t, t < m → ∀ j, j < frames * kChannelsPerFrame →
    (writePhase frames hosts st m).ringBuffer
        (t * (frames * kChannelsPerFrame) + j) =
      hosts t j * st.outputVolume := by
  intro m
  induction m with
  | zero => intro hm t ht; omega
  | succ m ih =>
      intro hm t ht j hj
      have hmc : (m + 1) * (frames * kChannelsPerFrame) ≤ kRingBufferSize :=
        le_trans (Nat.mul_le_mul_right _ hm) hcap
      have hsucc : (m + 1) * (frames * kChannelsPerFrame) =
          m * (frames * kChannelsPerFrame) + frames * kChannelsPerFrame := by ring
      have hwm : (writePhase frames hosts st m).ringBufferWritePosition =
          m * (frames * kChannelsPerFrame) := by
        rw [writePhase_writePosition frames hosts st hw m]
        exact Nat.mod_eq_of_lt (by omega)
      have hwlt : (writePhase frames hosts st m).ringBufferWritePosition <
          kRingBufferSize := by
        rw [hwm]; omega
      have hvol : (writePhase frames hosts st m).outputVolume = st.outputVolume :=
        (writePhase_preserves frames hosts st m).2.1
      have hstep : (writePhase frames hosts st (m + 1)).ringBuffer =
          (ringWriteLoop (writePhase frames hosts st m).outputVolume (hosts m) 0
            (frames * kChannelsPerFrame)
            (writePhase frames hosts st m).ringBuffer
            (writePhase frames hosts st m).ringBufferWritePosition).1 := by
        simp [writePhase, doIOOperation_writeMix]
      rcases Nat.lt_succ_iff_lt_or_eq.mp ht with ht2 | ht2
      · -- an earlier call writes below the new window: untouched by the new call
        have htm : (t + 1) * (frames * kChannelsPerFrame) ≤
            m * (frames * kChannelsPerFrame) :=
          Nat.mul_le_mul_right _ (by omega)
        have htsucc : (t + 1) * (frames * kChannelsPerFrame) =
            t * (frames * kChannelsPerFrame) + frames * kChannelsPerFrame := by ring
        rw [hstep]
        have huntouched : ∀ j2, j2 < frames * kChannelsPerFrame →
            t * (frames * kChannelsPerFrame) + j ≠
              ((writePhase frames hosts st m).ringBufferWritePosition + j2) %
                kRingBufferSize := by
          intro j2 hj2
          rw [hwm, Nat.mod_eq_of_lt (by omega)]
          omega
        rw [ringWriteLoop_untouched _ _ (frames * kChannelsPerFrame) 0 _ _ hwlt _
          huntouched]
        exact ih (by omega) t ht2 j hj
      · -- the new call stores its own samples in the new window
        subst ht2
        have hidx : t * (frames * kChannelsPerFrame) + j =
            ((writePhase frames hosts st t).ringBufferWritePosition + j) %
              kRingBufferSize := by
          rw [hwm, Nat.mod_eq_of_lt (by omega)]
        rw [hstep, hidx, ringWriteLoop_written _ _ (frames * kChannelsPerFrame) 0 _ _
          hwlt (by omega) j hj]
        rw [hvol]
        norm_num

/-! ### Claim C1 -/

/-- Claim C1 (corrected).  Starting from a state with both ring positions 0
(as StartIO leaves them), volumes 1 and no overrun
(`N·K·channels ≤ kRingBufferSize`), after `N` write-mix calls of `K` frames
each followed by `N` read-input calls of `K` frames each, the write and
read positions both equal `N·K·kChannelsPerFrame mod kRingBufferSize` — the
positions advance by the interleaved sample count `K * kChannelsPerFrame`
per call, not by the frame count `K` of the original claim — and every
sample returned by the reads equals the corresponding sample supplied to
the writes exactly. -/
theorem C1_ring_buffer_positions_and_loopback (st : DriverState) (N K : Nat)
    (hosts inbufs : Nat → Nat → Rat)
    (hw : st.ringBufferWritePosition = 0)
    (hr : st.ringBufferReadPosition = 0)
    (ho : st.outputVolume = 1) (hi : st.inputVolume = 1)
    (hcap : N * (K * kChannelsPerFrame) ≤ kRingBufferSize) :
    (writePhase K hosts st N).ringBufferWritePosition =
      (N * (K * kChannelsPerFrame)) % kRingBufferSize ∧
    (readPhase K inbufs (writePhase K hosts st N) N).ringBufferReadPosition =
      (N * (K * kChannelsPerFrame)) % kRingBufferSize ∧
    (readPhase K inbufs (writePhase K hosts st N) N).ringBufferWritePosition =
      (writePhase K hosts st N).ringBufferWritePosition ∧
    ∀ m, m < N → ∀ j, j < K * kChannelsPerFrame →
      readOutput K inbufs (writePhase K hosts st N) m j = hosts m j := by
  have hrW : (writePhase K hosts st N).ringBufferReadPosition = 0 := by
    rw [(writePhase_preserves K hosts st N).1]; exact hr
  refine ⟨writePhase_writePosition K hosts st hw N,
    readPhase_readPosition K inbufs _ hrW N,
    (readPhase_preserves K inbufs _ N).2.1, ?_⟩
  intro m hm j hj
  have hmc : (m + 1) * (K * kChannelsPerFrame) ≤ kRingBufferSize :=
    le_trans (Nat.mul_le_mul_right _ (by omega)) hcap
  have hsucc : (m + 1) * (K * kChannelsPerFrame) =
      m * (K * kChannelsPerFrame) + K * kChannelsPerFrame := by ring
  have hrm : (readPhase K inbufs (writePhase K hosts st N) m).ringBufferReadPosition =
      m * (K * kChannelsPerFrame) := by
    rw [readPhase_readPosition K inbufs _ hrW m]
    exact Nat.mod_eq_of_lt (by omega)
  have hrlt : (readPhase K inbufs (writePhase K hosts st N) m).ringBufferReadPosition <
      kRingBufferSize := by
    rw [hrm]; omega
  have hring : (readPhase K inbufs (writePhase K hosts st N) m).ringBuffer =
      (writePhase K hosts st N).ringBuffer :=
    (readPhase_preserves K inbufs _ m).1
  have hvol : (readPhase K inbufs (writePhase K hosts st N) m).inputVolume = 1 := by
    rw [(readPhase_preserves K inbufs _ m).2.2,
      (writePhase_preserves K hosts st N).2.2]
    exact hi
  have hout := ringReadLoop_output
    (readPhase K inbufs (writePhase K hosts st N) m).inputVolume
    (readPhase K inbufs (writePhase K hosts st N) m).ringBuffer
    (K * kChannelsPerFrame) 0
    (readPhase K inbufs (writePhase K hosts st N) m).ringBufferReadPosition
    (inbufs m) hrlt j hj
  rw [Nat.zero_add] at hout
  have hcontent := writePhase_content K N hosts st hw hcap N le_rfl m hm j hj
  calc readOutput K inbufs (writePhase K hosts st N) m j
      = (ringReadLoop
          (readPhase K inbufs (writePhase K hosts st N) m).inputVolume
          (readPhase K inbufs (writePhase K hosts st N) m).ringBuffer 0
          (K * kChannelsPerFrame)
          (readPhase K inbufs (writePhase K hosts st N) m).ringBufferReadPosition
          (inbufs m)).1 j := by
        simp [readOutput, doIOOperation_readInput]
    _ = (readPhase K inbufs (writePhase K hosts st N) m).ringBuffer
          (((readPhase K inbufs (writePhase K hosts st N) m).ringBufferReadPosition +
            j) % kRingBufferSize) *
          (readPhase K inbufs (writePhase K hosts st N) m).inputVolume := hout
    _ = (writePhase K hosts st N).ringBuffer
          (m * (K * kChannelsPerFrame) + j) * 1 := by
        rw [hring, hvol, hrm, Nat.mod_eq_of_lt (by omega)]
    _ = hosts m j * st.outputVolume * 1 := by rw [hcontent]
    _ = hosts m j := by rw [ho, mul_one, mul_one]

/-- Claim C1, the claim as frozen is false on the code: with `N = K = 1`
and start positions 0, the read index after the writes and reads is 2
(one frame advances the position by `kChannelsPerFrame = 2` interleaved
samples), not `1·1 mod kRingBufferSize = 1`. -/
theorem C1_counterexample :
    (readPhase 1 (fun _ _ => 0)
        (writePhase 1 (fun _ _ => (1 : Rat) / 2) testState 1) 1).ringBufferReadPosition ≠
      (1 * 1) % kRingBufferSize := by
  decide

/-- Witness for C1 at `N = K = 1` on `testState`. -/
theorem C1_witness :
    testState.ringBufferWritePosition = 0 ∧
    testState.ringBufferReadPosition = 0 ∧
    testState.outputVolume = 1 ∧
    testState.inputVolume = 1 ∧
    1 * (1 * kChannelsPerFrame) ≤ kRingBufferSize ∧
    ((writePhase 1 (fun _ _ => (1 : Rat) / 2) testState 1).ringBufferWritePosition =
      (1 * (1 * kChannelsPerFrame)) % kRingBufferSize ∧
    (readPhase 1 (fun _ _ => 0)
        (writePhase 1 (fun _ _ => (1 : Rat) / 2) testState 1) 1).ringBufferReadPosition =
      (1 * (1 * kChannelsPerFrame)) % kRingBufferSize ∧
    (readPhase 1 (fun _ _ => 0)
        (writePhase 1 (fun _ _ => (1 : Rat) / 2) testState 1) 1).ringBufferWritePosition =
      (writePhase 1 (fun _ _ => (1 : Rat) / 2) testState 1).ringBufferWritePosition ∧
    ∀ m, m < 1 → ∀ j, j < 1 * kChannelsPerFrame →
      readOutput 1 (fun _ _ => 0)
        (writePhase 1 (fun _ _ => (1 : Rat) / 2) testState 1) m j =
        (fun _ _ => (1 : Rat) / 2) m j) :=
  ⟨rfl, rfl, rfl, rfl, by decide,
    C1_ring_buffer_positions_and_loopback testState 1 1
      (fun _ _ => (1 : Rat) / 2) (fun _ _ => 0) rfl rfl rfl rfl (by decide)⟩

/-! ### Claim C2 -/

/-- Claim C2 (confirmed).  For a DoIOOperation write-mix call of `n` frames
from a reachable state (positions below capacity, `n × channels` at most
the capacity), each of the `n × kChannelsPerFrame` host floats is
multiplied by the output volume and stored at the successive ring positions
from the write position, which advances by `n × kChannelsPerFrame` modulo
capacity; a read-input call stores each of the `n × kChannelsPerFrame`
ring floats from the read position, multiplied by the input volume, into
the host buffer, and the read position advances the same way. -/
theorem C2_do_io_operation_write_read (st : DriverState) (n : Nat) (host : Nat → Rat)
    (hw : st.ringBufferWritePosition < kRingBufferSize)
    (hr : st.ringBufferReadPosition < kRingBufferSize)
    (hn : n * kChannelsPerFrame ≤ kRingBufferSize) :
    (SurgeAudioDriver_DoIOOperation st kAudioServerPlugInIOOperationWriteMix n
      host).status = kAudioHardwareNoError ∧
    (SurgeAudioDriver_DoIOOperation st kAudioServerPlugInIOOperationWriteMix n
      host).state.ringBufferWritePosition =
      (st.ringBufferWritePosition + n * kChannelsPerFrame) % kRingBufferSize ∧
    (∀ j, j < n * kChannelsPerFrame →
      (SurgeAudioDriver_DoIOOperation st kAudioServerPlugInIOOperationWriteMix n
        host).state.ringBuffer
          ((st.ringBufferWritePosition + j) % kRingBufferSize) =
        host j * st.outputVolume) ∧
    (SurgeAudioDriver_DoIOOperation st kAudioServerPlugInIOOperationReadInput n
      host).status = kAudioHardwareNoError ∧
    (SurgeAudioDriver_DoIOOperation st kAudioServerPlugInIOOperationReadInput n
      host).state.ringBufferReadPosition =
      (st.ringBufferReadPosition + n * kChannelsPerFrame) % kRingBufferSize ∧
    (∀ j, j < n * kChannelsPerFrame →
      (SurgeAudioDriver_DoIOOperation st kAudioServerPlugInIOOperationReadInput n
        host).buffer j =
        st.ringBuffer ((st.ringBufferReadPosition + j) % kRingBufferSize) *
          st.inputVolume) := by
  refine ⟨?_, ?_, ?_, ?_, ?_, ?_⟩
  · rw [doIOOperation_writeMix]
  · rw [doIOOperation_writeMix]
    exact ringWriteLoop_position _ _ _ _ _ _ hw
  · intro j hj
    rw [doIOOperation_writeMix]
    have := ringWriteLoop_written st.outputVolume host (n * kChannelsPerFrame) 0
      st.ringBuffer st.ringBufferWritePosition hw hn j hj
    simpa using this
  · rw [doIOOperation_readInput]
  · rw [doIOOperation_readInput]
    exact ringReadLoop_position _ _ _ _ _ _ hr
  · intro j hj
    rw [doIOOperation_readInput]
    have := ringReadLoop_output st.inputVolume st.ringBuffer
      (n * kChannelsPerFrame) 0 st.ringBufferReadPosition host hr j hj
    simpa using this

/-- Witness for C2 at one frame of constant samples on `testState`. -/
theorem C2_witness :
    testState.ringBufferWritePosition < kRingBufferSize ∧
    testState.ringBufferReadPosition < kRingBufferSize ∧
    1 * kChannelsPerFrame ≤ kRingBufferSize ∧
    (SurgeAudioDriver_DoIOOperation testState kAudioServerPlugInIOOperationWriteMix 1
      (fun _ => (1 : Rat) / 2)).status = kAudioHardwareNoError :=
  ⟨by decide, by decide, by decide,
    (C2_do_io_operation_write_read testState 1 (fun _ => (1 : Rat) / 2)
      (by decide) (by decide) (by decide)).1⟩

/-! ### Claim C3 -/

/-- Claim C3 (corrected).  StartIO keeps no client counter: it ignores the
client id; when the device is not running it captures the anchor host time,
resets the anchor sample time, zeroes the ring buffer, resets both
positions and marks the device running, and when it is already running it
changes nothing; StopIO unconditionally marks the device not running, so
the first StopIO stops the device even while another client has IO
started. -/
theorem C3_start_stop_behavior : ∀ (st : DriverState) (clientA clientB t t2 : Nat),
    ( SurgeAudioDriver_StartIO st clientA t).1 = kAudioHardwareNoError ∧
    (( SurgeAudioDriver_StartIO st clientA t).2).deviceIsRunning = true ∧
    (st.deviceIsRunning = false →
      (( SurgeAudioDriver_StartIO st clientA t).2).anchorHostTime = t ∧
      (( SurgeAudioDriver_StartIO st clientA t).2).anchorSampleTime = 0 ∧
      (( SurgeAudioDriver_StartIO st clientA t).2).ringBufferWritePosition = 0 ∧
      (( SurgeAudioDriver_StartIO st clientA t).2).ringBufferReadPosition = 0 ∧
      (( SurgeAudioDriver_StartIO st clientA t).2).ringBuffer = fun _ => 0) ∧
    (st.deviceIsRunning = true → ( SurgeAudioDriver_StartIO st clientA t).2 = st) ∧
    ( SurgeAudioDriver_StopIO st clientA).1 = kAudioHardwareNoError ∧
    (( SurgeAudioDriver_StopIO st clientA).2).deviceIsRunning = false ∧
    (( SurgeAudioDriver_StopIO
        (( SurgeAudioDriver_StartIO
          (( SurgeAudioDriver_StartIO st clientA t).2) clientB t2).2)
        clientA).2).deviceIsRunning = false := by
  intro st clientA clientB t t2
  cases h : st.deviceIsRunning <;>
    simp [ SurgeAudioDriver_StartIO, SurgeAudioDriver_StopIO, h]

/-- Claim C3, the claim as frozen is false on the code: after
StartIO(clientA), StartIO(clientB), StopIO(clientA) from the initial state
the device is not running — the first StopIO stops it although clientB
never stopped. -/
theorem C3_counterexample :
    (( SurgeAudioDriver_StopIO
        (( SurgeAudioDriver_StartIO
          (( SurgeAudioDriver_StartIO testState 1 100).2) 2 200).2) 1).2).deviceIsRunning =
      false := by
  decide

/-- Witness for C3 on `testState` (not running), exercising the
anchor-capture branch. -/
theorem C3_witness :
    (( SurgeAudioDriver_StartIO testState 1 100).2).deviceIsRunning = true ∧
    (( SurgeAudioDriver_StartIO testState 1 100).2).anchorHostTime = 100 :=
  ⟨(C3_start_stop_behavior testState 1 2 100 200).2.1,
    ((C3_start_stop_behavior testState 1 2 100 200).2.2.1 rfl).1⟩

/-! ### Claim C4 -/

/-- Claim C4 (confirmed).  During one running session (fixed anchor and
ticks-per-frame, host clock at least the anchor and not decreasing),
GetZeroTimeStamp returns sample times and host times that are monotonically
non-decreasing, every returned sample time is an exact multiple of the
zero-timestamp period `kLatency_Frame_Size = 512`, and consecutive sample
times differ by a multiple of that period. -/
theorem C4_zero_timestamp_monotone (st : DriverState) (t1 t2 : Nat)
    (h1 : st.anchorHostTime ≤ t1) (h2 : t1 ≤ t2) :
    (SurgeAudioDriver_GetZeroTimeStamp st t1).sampleTime ≤
      (SurgeAudioDriver_GetZeroTimeStamp st t2).sampleTime ∧
    (SurgeAudioDriver_GetZeroTimeStamp st t1).hostTime ≤
      (SurgeAudioDriver_GetZeroTimeStamp st t2).hostTime ∧
    kLatency_Frame_Size ∣ (SurgeAudioDriver_GetZeroTimeStamp st t1).sampleTime ∧
    kLatency_Frame_Size ∣ (SurgeAudioDriver_GetZeroTimeStamp st t2).sampleTime ∧
    kLatency_Frame_Size ∣
      ((SurgeAudioDriver_GetZeroTimeStamp st t2).sampleTime -
        (SurgeAudioDriver_GetZeroTimeStamp st t1).sampleTime) := by
  have hperiods : (t1 - st.anchorHostTime) / st.ticksPerFrame / kLatency_Frame_Size ≤
      (t2 - st.anchorHostTime) / st.ticksPerFrame / kLatency_Frame_Size :=
    Nat.div_le_div_right (Nat.div_le_div_right (Nat.sub_le_sub_right h2 _))
  refine ⟨?_, ?_, ?_, ?_, ?_⟩
  · exact Nat.mul_le_mul_right _ hperiods
  · exact Nat.add_le_add_left (Nat.mul_le_mul_right _
      (Nat.mul_le_mul_right _ hperiods)) _
  · exact dvd_mul_left _ _
  · exact dvd_mul_left _ _
  · simp only [SurgeAudioDriver_GetZeroTimeStamp]
    rw [← Nat.sub_mul]
    exact dvd_mul_left _ _

/-- Witness for C4 on `testState` at host times 0 and one period later. -/
theorem C4_witness :
    testState.anchorHostTime ≤ 0 ∧ (0 : Nat) ≤ 20833 * 512 ∧
    (SurgeAudioDriver_GetZeroTimeStamp testState 0).sampleTime ≤
      (SurgeAudioDriver_GetZeroTimeStamp testState (20833 * 512)).sampleTime :=
  ⟨by decide, by decide,
    (C4_zero_timestamp_monotone testState 0 (20833 * 512) (by decide) (by decide)).1⟩

/-! ### Property addresses used by the remaining claims -/

def nominalSampleRateAddress : AudioObjectPropertyAddress :=
  ⟨kAudioDevicePropertyNominalSampleRate, kAudioObjectPropertyScopeGlobal,
    kAudioObjectPropertyElementMain⟩

def availableRatesAddress : AudioObjectPropertyAddress :=
  ⟨kAudioDevicePropertyAvailableNominalSampleRates, kAudioObjectPropertyScopeGlobal,
    kAudioObjectPropertyElementMain⟩

def iconAddress : AudioObjectPropertyAddress :=
  ⟨kAudioDevicePropertyIcon, kAudioObjectPropertyScopeGlobal,
    kAudioObjectPropertyElementMain⟩

def scalarValueAddress : AudioObjectPropertyAddress :=
  ⟨kAudioLevelControlPropertyScalarValue, kAudioObjectPropertyScopeGlobal,
    kAudioObjectPropertyElementMain⟩

def decibelValueAddress : AudioObjectPropertyAddress :=
  ⟨kAudioLevelControlPropertyDecibelValue, kAudioObjectPropertyScopeGlobal,
    kAudioObjectPropertyElementMain⟩

def convertScalarToDecibelsAddress : AudioObjectPropertyAddress :=
  ⟨kAudioLevelControlPropertyConvertScalarToDecibels, kAudioObjectPropertyScopeGlobal,
    kAudioObjectPropertyElementMain⟩

def convertDecibelsToScalarAddress : AudioObjectPropertyAddress :=
  ⟨kAudioLevelControlPropertyConvertDecibelsToScalar, kAudioObjectPropertyScopeGlobal,
    kAudioObjectPropertyElementMain⟩

/-! ### Claim C5 -/

/-- Claim C5 (corrected).  SetPropertyData on the nominal sample rate
performs no membership check: any supplied `Float64` rate is stored as the
current rate with success, and `ticksPerFrame` is recomputed for it — so
after a set the current rate equals the supplied value even when it is
outside the advertised list. -/
theorem C5_set_sample_rate_unvalidated :
    ∀ (tbNumer tbDenom : Nat) (powTenDiv20 : Rat → Rat) (st : DriverState) (r : Rat),
    (SurgeAudioDriver_SetPropertyData tbNumer tbDenom powTenDiv20 st
      kObjectID_Device nominalSampleRateAddress (PropertyValue.float64 r)).1 =
      kAudioHardwareNoError ∧
    (SurgeAudioDriver_SetPropertyData tbNumer tbDenom powTenDiv20 st
      kObjectID_Device nominalSampleRateAddress (PropertyValue.float64 r)).2.sampleRate =
      r ∧
    (SurgeAudioDriver_SetPropertyData tbNumer tbDenom powTenDiv20 st
      kObjectID_Device nominalSampleRateAddress (PropertyValue.float64 r)).2.ticksPerFrame =
      computeTicksPerFrame tbNumer tbDenom r := by
  intro tbNumer tbDenom powTenDiv20 st r
  refine ⟨?_, ?_, ?_⟩ <;>
    simp [SurgeAudioDriver_SetPropertyData, nominalSampleRateAddress,
      PropertyValue.float64Val]

/-- Claim C5, the claim as frozen is false on the code: setting the rate to
22050 — not among the four advertised rates — succeeds (status 0, not the
illegal-operation error) and changes the current rate from 48000 to
22050. -/
theorem C5_counterexample :
    (SurgeAudioDriver_SetPropertyData 1 1 (fun d => d) testState
      kObjectID_Device nominalSampleRateAddress (PropertyValue.float64 22050)).1 =
      kAudioHardwareNoError ∧
    (SurgeAudioDriver_SetPropertyData 1 1 (fun d => d) testState
      kObjectID_Device nominalSampleRateAddress (PropertyValue.float64 22050)).1 ≠
      kAudioHardwareIllegalOperationError ∧
    testState.sampleRate = 48000 ∧
    (SurgeAudioDriver_SetPropertyData 1 1 (fun d => d) testState
      kObjectID_Device nominalSampleRateAddress (PropertyValue.float64 22050)).2.sampleRate =
      22050 ∧
    (SurgeAudioDriver_GetPropertyData (fun d => d) testState kObjectID_Device
      availableRatesAddress none 64).outData =
      some (.valueRangeList [(44100, 44100), (48000, 48000),
        (96000, 96000), (192000, 192000)]) ∧
    (22050 : Rat) ∉ [(44100 : Rat), 48000, 96000, 192000] := by
  refine ⟨?_, ?_, ?_, ?_, ?_, ?_⟩ <;> decide

/-! ### Claim C6 -/

/-- Claim C6 (code bug).  With a non-null output buffer whose given size 4
is smaller than the required 8 bytes of the device nominal sample rate,
SurgeAudioDriver_GetPropertyData still writes the full value and full size
and returns success, never the bad-property-size error (the source never
reads `inDataSize`); and the native variant device getter
(`GetDevicePropertyData`) leaves the buffer unwritten but also returns
success with the required size instead of the bad-property-size error. -/
theorem C6_get_property_data_ignores_size :
    (SurgeAudioDriver_GetPropertyData (fun d => d) testState kObjectID_Device
      nominalSampleRateAddress none 4).status = kAudioHardwareNoError ∧
    (SurgeAudioDriver_GetPropertyData (fun d => d) testState kObjectID_Device
      nominalSampleRateAddress none 4).status ≠ kAudioHardwareBadPropertySizeError ∧
    (SurgeAudioDriver_GetPropertyData (fun d => d) testState kObjectID_Device
      nominalSampleRateAddress none 4).outData = some (.float64 48000) ∧
    (SurgeAudioDriver_GetPropertyData (fun d => d) testState kObjectID_Device
      nominalSampleRateAddress none 4).outDataSize = some 8 ∧
    (4 : Nat) < 8 ∧
    NativeAudio.GetDevicePropertyData NativeAudio.nativeTestState
      nominalSampleRateAddress true 4 =
      ⟨kAudioHardwareNoError, some 8, none⟩ := by
  refine ⟨?_, ?_, ?_, ?_, ?_, ?_⟩ <;> decide

/-! ### Claim C7 -/

/-- Claim C7 (code bug).  HasProperty advertises the device icon selector
and the volume controls scalar-to-decibel and decibel-to-scalar conversion
selectors, and GetPropertyDataSize answers a size for them, but
GetPropertyData has no case for any of them and fails with the
unknown-property error, so the advertised-implies-gettable invariant fails
exactly there. -/
theorem C7_has_property_get_mismatch :
    SurgeAudioDriver_HasProperty kObjectID_Device iconAddress = true ∧
    SurgeAudioDriver_GetPropertyDataSize kObjectID_Device iconAddress =
      (kAudioHardwareNoError, some 8) ∧
    (SurgeAudioDriver_GetPropertyData (fun d => d) testState kObjectID_Device
      iconAddress none 8).status = kAudioHardwareUnknownPropertyError ∧
    (SurgeAudioDriver_GetPropertyData (fun d => d) testState kObjectID_Device
      iconAddress none 8).outData = none ∧
    SurgeAudioDriver_HasProperty kObjectID_Volume_Input_Master
      convertScalarToDecibelsAddress = true ∧
    (SurgeAudioDriver_GetPropertyData (fun d => d) testState
      kObjectID_Volume_Input_Master convertScalarToDecibelsAddress none 4).status =
      kAudioHardwareUnknownPropertyError ∧
    SurgeAudioDriver_HasProperty kObjectID_Volume_Input_Master
      convertDecibelsToScalarAddress = true ∧
    (SurgeAudioDriver_GetPropertyData (fun d => d) testState
      kObjectID_Volume_Input_Master convertDecibelsToScalarAddress none 4).status =
      kAudioHardwareUnknownPropertyError ∧
    SurgeAudioDriver_HasProperty kObjectID_Volume_Output_Master
      convertScalarToDecibelsAddress = true ∧
    (SurgeAudioDriver_GetPropertyData (fun d => d) testState
      kObjectID_Volume_Output_Master convertScalarToDecibelsAddress none 4).status =
      kAudioHardwareUnknownPropertyError ∧
    SurgeAudioDriver_HasProperty kObjectID_Volume_Output_Master
      convertDecibelsToScalarAddress = true ∧
    (SurgeAudioDriver_GetPropertyData (fun d => d) testState
      kObjectID_Volume_Output_Master convertDecibelsToScalarAddress none 4).status =
      kAudioHardwareUnknownPropertyError := by
  refine ⟨?_, ?_, ?_, ?_, ?_, ?_, ?_, ?_, ?_, ?_, ?_, ?_⟩ <;> decide

/-! ### Claim C8 -/

/-- Claim C8 (corrected).  SurgeAudioDriver_WillDoIOOperation answers
willDo = true (in place) exactly for the read-input and write-mix operation
identifiers and willDo = false for every other identifier; but the
native-audio variant WillDoIOOperation answers willDo = true for every
operation identifier whatsoever. -/
theorem C8_will_do_operations : ∀ operationID : Nat,
    ((SurgeAudioDriver_WillDoIOOperation operationID).2.1 = true ↔
      (operationID = kAudioServerPlugInIOOperationReadInput ∨
        operationID = kAudioServerPlugInIOOperationWriteMix)) ∧
    (SurgeAudioDriver_WillDoIOOperation operationID).2.2 = true ∧
    (SurgeAudioDriver_WillDoIOOperation operationID).1 = kAudioHardwareNoError ∧
    NativeAudio.WillDoIOOperation operationID = (0, true, true) := by
  intro operationID
  by_cases h : operationID = kAudioServerPlugInIOOperationReadInput ∨
      operationID = kAudioServerPlugInIOOperationWriteMix <;>
    simp [SurgeAudioDriver_WillDoIOOperation, NativeAudio.WillDoIOOperation, h]

/-- Claim C8, the claim as frozen is false on the code of the native
variant: operation identifier 0 is neither read-input nor write-mix, yet
the native WillDoIOOperation answers willDo = true for it. -/
theorem C8_counterexample :
    (NativeAudio.WillDoIOOperation 0).2.1 = true ∧
    (0 : Nat) ≠ kAudioServerPlugInIOOperationReadInput ∧
    (0 : Nat) ≠ kAudioServerPlugInIOOperationWriteMix := by
  refine ⟨?_, ?_, ?_⟩ <;> decide

/-! ### Claim C9 -/

/-- Claim C9 (corrected).  The volume setters store exactly what arrives:
the scalar branch stores the supplied `Float32` with no clamping to [0,1],
and the decibel branch stores `powf(10, dB/20)` of the supplied value with
no cap at 0 dB — so the stored scalar lies in [0,1] only when the supplied
data puts it there. -/
theorem C9_volume_set_unclamped :
    ∀ (tbNumer tbDenom : Nat) (powTenDiv20 : Rat → Rat) (st : DriverState) (v dB : Rat),
    (SurgeAudioDriver_SetPropertyData tbNumer tbDenom powTenDiv20 st
      kObjectID_Volume_Input_Master scalarValueAddress (PropertyValue.float32 v)).1 =
      kAudioHardwareNoError ∧
    (SurgeAudioDriver_SetPropertyData tbNumer tbDenom powTenDiv20 st
      kObjectID_Volume_Input_Master scalarValueAddress
        (PropertyValue.float32 v)).2.inputVolume = v ∧
    (SurgeAudioDriver_SetPropertyData tbNumer tbDenom powTenDiv20 st
      kObjectID_Volume_Output_Master scalarValueAddress (PropertyValue.float32 v)).1 =
      kAudioHardwareNoError ∧
    (SurgeAudioDriver_SetPropertyData tbNumer tbDenom powTenDiv20 st
      kObjectID_Volume_Output_Master scalarValueAddress
        (PropertyValue.float32 v)).2.outputVolume = v ∧
    (SurgeAudioDriver_SetPropertyData tbNumer tbDenom powTenDiv20 st
      kObjectID_Volume_Input_Master decibelValueAddress (PropertyValue.float32 dB)).1 =
      kAudioHardwareNoError ∧
    (SurgeAudioDriver_SetPropertyData tbNumer tbDenom powTenDiv20 st
      kObjectID_Volume_Input_Master decibelValueAddress
        (PropertyValue.float32 dB)).2.inputVolume = powTenDiv20 dB ∧
    (SurgeAudioDriver_SetPropertyData tbNumer tbDenom powTenDiv20 st
      kObjectID_Volume_Output_Master decibelValueAddress (PropertyValue.float32 dB)).1 =
      kAudioHardwareNoError ∧
    (SurgeAudioDriver_SetPropertyData tbNumer tbDenom powTenDiv20 st
      kObjectID_Volume_Output_Master decibelValueAddress
        (PropertyValue.float32 dB)).2.outputVolume = powTenDiv20 dB := by
  intro tbNumer tbDenom powTenDiv20 st v dB
  refine ⟨?_, ?_, ?_, ?_, ?_, ?_, ?_, ?_⟩ <;>
    simp [SurgeAudioDriver_SetPropertyData, scalarValueAddress, decibelValueAddress,
      PropertyValue.float32Val, kObjectID_Volume_Input_Master,
      kObjectID_Volume_Output_Master, kObjectID_Device, kObjectID_Stream_Input,
      kObjectID_Stream_Output, kAudioLevelControlPropertyScalarValue,
      kAudioLevelControlPropertyDecibelValue]

/-- Claim C9, the claim as frozen is false on the code: setting the input
volume scalar to 2.0 succeeds and leaves the stored scalar at 2.0, outside
[0,1]. -/
theorem C9_counterexample :
    (SurgeAudioDriver_SetPropertyData 1 1 (fun d => d) testState
      kObjectID_Volume_Input_Master scalarValueAddress (PropertyValue.float32 2)).1 =
      kAudioHardwareNoError ∧
    (SurgeAudioDriver_SetPropertyData 1 1 (fun d => d) testState
      kObjectID_Volume_Input_Master scalarValueAddress
        (PropertyValue.float32 2)).2.inputVolume = 2 ∧
    ¬ ((2 : Rat) ≤ 1) := by
  refine ⟨?_, ?_, ?_⟩ <;> decide

/-! ### Claim C10 -/

/-- Claim C10 (corrected).  Release never underflows: at a positive count
it decrements, at zero it returns zero and leaves zero; but
CleanupDriverState runs on every Release call that ends with the count at
zero — also on calls made when the count already was zero — not only on
the 1 to 0 transition; the native variant Release likewise never
underflows and performs no cleanup at all. -/
theorem C10_release_no_underflow : ∀ n : Nat,
    (SurgeAudioDriver_Release n).1 = n - 1 ∧
    (SurgeAudioDriver_Release n).1 ≤ n ∧
    ((SurgeAudioDriver_Release n).2 = true ↔ n ≤ 1) ∧
    NativeAudio.Release n = n - 1 ∧
    (SurgeAudioDriver_AddRef 0 = 1 ∧ SurgeAudioDriver_Release 1 = (0, true)) := by
  intro n
  refine ⟨?_, ?_, ?_, ?_, by decide, by decide⟩
  · rcases n with _ | n <;> simp [SurgeAudioDriver_Release]
  · rcases n with _ | n <;> simp [SurgeAudioDriver_Release]
  · rcases n with _ | n <;> simp [SurgeAudioDriver_Release]
  · rcases n with _ | n <;> simp [NativeAudio.Release]

/-- Claim C10, the claim as frozen is false on the code: a Release call
made when the count is already zero returns zero and leaves zero (that
much holds), but CleanupDriverState runs again on it, not only on the
transition to zero. -/
theorem C10_counterexample :
    SurgeAudioDriver_Release 0 = (0, true) := by
  decide
